import Mathlib

/-!
Shallow embedding of the auth/session/permission core of the AIex backend
(src/api/database.py, src/api/auth.py, src/api/user_routes.py, src/api/models.py).

Modelling conventions:
* Timestamps are integers (seconds).  SQL NOW() is an explicit `now` argument;
  INTERVAL 'd days' is `d * 86400` seconds; the calendar presets (1 week,
  1 month, ...) are modelled as fixed lengths (7, 30, 90, 180, 365 days).
* Each `get_db_cursor()` context in the Python source opens its own connection
  and commits independently; a helper that runs several such contexts is
  therefore a sequence of separately-committed steps.  Where a claim is about
  failure behaviour, a Boolean fault flag models a psycopg2 failure of one
  such step, which the source surfaces as `DatabaseError`.
* bcrypt is an external primitive; it is modelled ideally: a digest records
  the salt and the plaintext, and checkpw succeeds iff the plaintexts match.
* SHA-256 (`hash_token`) is modelled as an injective tagging function on
  strings; the code only uses it as a deterministic fingerprint / lookup key.
* SQL tables are lists of records; UPDATE is a `map` guarded by the WHERE
  clause, `cursor.rowcount > 0` is `any` of the WHERE clause, SELECT-fetchone
  is `find?`.
-/

namespace AIex

/-- Role enum of the users table (role column: 'user' or 'admin'). -/
inductive Role where
  | user
  | admin
deriving DecidableEq, Repr

/-- Status enum of the users table (models.UserStatus). -/
inductive UserStatus where
  | pending
  | active
  | suspended
  | inactive
deriving DecidableEq, Repr

/-- Status enum of permission_requests (models.PermissionRequestStatus). -/
inductive ReqStatus where
  | pending
  | approved
  | rejected
deriving DecidableEq, Repr

/-- Ideal model of a bcrypt digest: hash_password stores a fresh salt and the
plaintext, verify_password (bcrypt.checkpw) succeeds iff plaintexts match. -/
structure PasswordDigest where
  salt : String
  plain : String
deriving DecidableEq, Repr

/-- auth.hash_password. -/
def hashPassword (salt password : String) : PasswordDigest :=
  { salt := salt, plain := password }

/-- auth.verify_password (bcrypt.checkpw, modelled ideally). -/
def verifyPassword (password : String) (d : PasswordDigest) : Bool :=
  password = d.plain

/-- A row of the users table (columns the auth/permission core touches). -/
structure UserRec where
  id : Nat
  username : String
  email : String
  passwordHash : PasswordDigest
  fullName : Option String
  role : Role
  status : UserStatus
  permissionGrantedAt : Option Int
  permissionExpiresAt : Option Int
  grantedBy : Option Nat
  lastLogin : Option Int
deriving DecidableEq, Repr

/-- A row of the permission_requests table. -/
structure ReqRec where
  id : Nat
  userId : Nat
  requestReason : String
  requestedDuration : String
  additionalInfo : Option String
  status : ReqStatus
  reviewedBy : Option Nat
  reviewedAt : Option Int
  reviewerComments : Option String
  approvedDuration : Option String
deriving DecidableEq, Repr

/-- A row of the user_sessions table. -/
structure SessionRec where
  userId : Nat
  tokenHash : String
  expiresAt : Int
  ipAddress : Option String
  userAgent : Option String
deriving DecidableEq, Repr

/-- A row of the audit_logs table (the JSON details payload is out of the
claims' scope and omitted). -/
structure AuditEntry where
  userId : Option Nat
  action : String
  entityType : Option String
  entityId : Option Nat
  ipAddress : Option String
deriving DecidableEq, Repr

/-- The mutable database state seen by the handlers. -/
structure DBState where
  users : List UserRec
  requests : List ReqRec
  sessions : List SessionRec
  audit : List AuditEntry
deriving DecidableEq, Repr

/-! ### Token layer (auth.py) -/

/-- auth.ACCESS_TOKEN_EXPIRE_HOURS. -/
def ACCESS_TOKEN_EXPIRE_HOURS : Int := 24

/-- The claims embedded in a JWT by create_access_token. -/
structure TokenClaims where
  userId : Nat
  username : String
  role : Role
  exp : Int
deriving DecidableEq, Repr

/-- A signed JWT: the claims plus the key it was signed with (HS256 signing
modelled by recording the key; verification compares keys). -/
structure JwtToken where
  claims : TokenClaims
  key : String
deriving DecidableEq, Repr

/-- auth.create_access_token with the default ttl (24 hours). -/
def createAccessToken (key : String) (now : Int) (userId : Nat)
    (username : String) (role : Role) : JwtToken :=
  { claims := { userId := userId, username := username, role := role,
                exp := now + ACCESS_TOKEN_EXPIRE_HOURS * 3600 },
    key := key }

/-- The two failure kinds of auth.verify_token. -/
inductive AuthErr where
  | expired
  | invalid
deriving DecidableEq, Repr

/-- auth.verify_token: jwt.decode checks the signature and the exp claim. -/
def verifyToken (key : String) (now : Int) (t : JwtToken) :
    Except AuthErr TokenClaims :=
  if t.key ≠ key then .error .invalid
  else if t.claims.exp ≤ now then .error .expired
  else .ok t.claims

/-- serialisation of a JWT to its wire string (injective encoding). -/
def tokenString (t : JwtToken) : String :=
  toString t.claims.userId ++ "." ++ t.claims.username ++ "." ++
    (match t.claims.role with | .user => "user" | .admin => "admin") ++ "." ++
    toString t.claims.exp ++ "." ++ t.key

/-- auth.hash_token: SHA-256 hex digest, modelled as an injective tag. -/
def hashToken (s : String) : String :=
  "sha256:" ++ s

/-! ### UserDatabase (database.py) -/

/-- The SET clauses of the three UPDATE statements of
UserDatabase.update_user_permission, branching on days (-1 / 0 / else). -/
def numericGrantRow (now : Int) (days : Int) (grantedBy : Nat) (u : UserRec) :
    UserRec :=
  if days = -1 then
    { u with permissionGrantedAt := some now, permissionExpiresAt := none,
             grantedBy := some grantedBy, status := .active }
  else if days = 0 then
    { u with permissionGrantedAt := some now, permissionExpiresAt := some now,
             grantedBy := some grantedBy, status := .inactive }
  else
    { u with permissionGrantedAt := some now,
             permissionExpiresAt := some (now + days * 86400),
             grantedBy := some grantedBy, status := .active }

/-- UserDatabase.update_user_permission: the UPDATE is guarded by
WHERE id = userId AND role = 'user'; the Bool is cursor.rowcount > 0. -/
def update_user_permission (now : Int) (userId : Nat) (days : Int)
    (grantedBy : Nat) (users : List UserRec) : List UserRec × Bool :=
  (users.map (fun u =>
     if u.id = userId ∧ u.role = .user then numericGrantRow now days grantedBy u
     else u),
   users.any (fun u => decide (u.id = userId ∧ u.role = .user)))

/-- Maximal digit prefix of a character list and the remaining suffix. -/
def spanDigits : List Char → List Char × List Char
  | [] => ([], [])
  | c :: cs =>
    if c.isDigit then
      let p := spanDigits cs
      (c :: p.1, p.2)
    else ([], c :: cs)

/-- Numeric value of a digit string (Python int of the matched group). -/
def digitsVal (l : List Char) : Nat :=
  l.foldl (fun acc c => acc * 10 + (c.toNat - '0'.toNat)) 0

/-- The custom day-count branch of UserDatabase.grant_permission:
re.match of the raw string against the anchored pattern digits + "day"/"days"
(at least one digit, then exactly "day" or "days"). -/
def parseCustomDays (s : String) : Option Nat :=
  let p := spanDigits s.data
  if p.1 = [] then none
  else if p.2 = "days".data ∨ p.2 = "day".data then some (digitsVal p.1)
  else none

/-- The duration vocabulary of UserDatabase.grant_permission: the five presets
of duration_map, else the custom "Ndays" pattern; none models the ValueError.
Calendar intervals are modelled as fixed second counts. -/
def durationSeconds (duration : String) : Option Int :=
  if duration = "1week" then some (7 * 86400)
  else if duration = "1month" then some (30 * 86400)
  else if duration = "3months" then some (90 * 86400)
  else if duration = "6months" then some (180 * 86400)
  else if duration = "1year" then some (365 * 86400)
  else match parseCustomDays duration with
    | some n => some ((n : Int) * 86400)
    | none => none

/-- UserDatabase.grant_permission: parses the duration (ValueError on failure,
modelled as .error), then runs an UPDATE whose WHERE clause is id = userId
only — it has no role filter.  The Bool is cursor.rowcount > 0. -/
def grant_permission (now : Int) (userId : Nat) (duration : String)
    (grantedBy : Nat) (users : List UserRec) :
    Except String (List UserRec × Bool) :=
  match durationSeconds duration with
  | none => .error ("无效的权限时长: " ++ duration)
  | some secs =>
      .ok (users.map (fun u =>
             if u.id = userId then
               { u with status := .active, permissionGrantedAt := some now,
                        permissionExpiresAt := some (now + secs),
                        grantedBy := some grantedBy }
             else u),
           users.any (fun u => u.id = userId))

/-- UserDatabase.get_user_by_id (SELECT * WHERE id, fetchone). -/
def get_user_by_id (users : List UserRec) (userId : Nat) : Option UserRec :=
  users.find? (fun u => u.id = userId)

/-- UserDatabase.get_user_by_username (SELECT * WHERE username, fetchone). -/
def get_user_by_username (users : List UserRec) (username : String) :
    Option UserRec :=
  users.find? (fun u => u.username = username)

/-! ### PermissionRequestDatabase (database.py) -/

/-- PermissionRequestDatabase.get_request_by_id (fetchone from the view). -/
def get_request_by_id (reqs : List ReqRec) (requestId : Nat) : Option ReqRec :=
  reqs.find? (fun r => r.id = requestId)

/-- PermissionRequestDatabase.review_request: one UPDATE whose WHERE clause is
id = requestId only (no status condition); sets status to approved/rejected
per the approved flag, plus reviewer metadata.  The Bool is rowcount > 0. -/
def review_request (now : Int) (requestId : Nat) (approved : Bool)
    (reviewedBy : Nat) (reviewerComments : Option String)
    (approvedDuration : Option String) (reqs : List ReqRec) :
    List ReqRec × Bool :=
  let newStatus : ReqStatus := if approved then .approved else .rejected
  (reqs.map (fun r =>
     if r.id = requestId then
       { r with status := newStatus, reviewedBy := some reviewedBy,
                reviewedAt := some now, reviewerComments := reviewerComments,
                approvedDuration := approvedDuration }
     else r),
   reqs.any (fun r => r.id = requestId))

/-! ### SessionDatabase (database.py) -/

/-- SessionDatabase.create_session (plain INSERT). -/
def create_session (userId : Nat) (tokenHash : String) (expiresAt : Int)
    (ip ua : Option String) (sessions : List SessionRec) : List SessionRec :=
  sessions ++ [{ userId := userId, tokenHash := tokenHash,
                 expiresAt := expiresAt, ipAddress := ip, userAgent := ua }]

/-- SessionDatabase.validate_session: SELECT joining user_sessions with users
on s.user_id = u.id, WHERE token_hash matches AND expires_at > NOW();
fetchone of the join. -/
def validate_session (now : Int) (tokenHash : String)
    (sessions : List SessionRec) (users : List UserRec) :
    Option (SessionRec × UserRec) :=
  (sessions.filter (fun s =>
      decide (s.tokenHash = tokenHash ∧ now < s.expiresAt))).findSome?
    (fun s => (users.find? (fun u => u.id = s.userId)).map (fun u => (s, u)))

/-- SessionDatabase.delete_session (DELETE WHERE token_hash). -/
def delete_session (tokenHash : String) (sessions : List SessionRec) :
    List SessionRec :=
  sessions.filter (fun s => s.tokenHash ≠ tokenHash)

/-- auth.logout_user: fingerprint the raw token, delete the session row. -/
def logout_user (token : JwtToken) (sessions : List SessionRec) :
    List SessionRec :=
  delete_session (hashToken (tokenString token)) sessions

/-! ### Access Control Gate (auth.py) -/

/-- auth.get_current_user.  The try block runs: verify_token; the falsy check
on payload.get("user_id") (0 is falsy in Python); validate_session;
get_user_by_id; the status-in-allowed-set check.  AuthenticationError maps to
HTTP 401 "认证失败"; any other exception — in particular a DatabaseError from
the session or user lookup, modelled by the fault flags — maps to HTTP 401
"认证错误".  The error value is the (status code, detail) pair. -/
def get_current_user (key : String) (now : Int) (t : JwtToken)
    (sessions : List SessionRec) (users : List UserRec)
    (sessionFault userFault : Bool) : Except (Nat × String) UserRec :=
  match verifyToken key now t with
  | .error _ => .error (401, "认证失败")
  | .ok payload =>
    if payload.userId = 0 then .error (401, "认证失败")
    else if sessionFault then .error (401, "认证错误")
    else match validate_session now (hashToken (tokenString t)) sessions users with
      | none => .error (401, "认证失败")
      | some _ =>
        if userFault then .error (401, "认证错误")
        else match get_user_by_id users payload.userId with
          | none => .error (401, "认证失败")
          | some u =>
            if u.status = .active ∨ u.status = .pending then .ok u
            else .error (401, "认证失败")

/-- Outcome of the active-access gate. -/
inductive ActiveGate where
  | ok (u : UserRec)
  | forbidden (msg : String)
deriving DecidableEq, Repr

/-- auth.get_current_active_user, given the principal already resolved by
get_current_user: admins pass; non-admins need status active; then the
request-time expiry check (a non-null permission_expires_at that is ≤ now
rejects with 403). -/
def get_current_active_user (now : Int) (u : UserRec) : ActiveGate :=
  if u.role = .admin then .ok u
  else if u.status ≠ .active then
    .forbidden "您的账户权限申请还未被批准，请耐心等待"
  else match u.permissionExpiresAt with
    | some e =>
        if e ≤ now then .forbidden "您的访问权限已过期，请重新申请"
        else .ok u
    | none => .ok u

/-! ### Login / logout handlers (auth.py + user_routes.py) -/

/-- auth.authenticate_user: look up by username; absent → None; password
verify failure → None. -/
def authenticate_user (users : List UserRec) (username password : String) :
    Option UserRec :=
  match get_user_by_username users username with
  | none => none
  | some u => if verifyPassword password u.passwordHash then some u else none

/-- The message str(DatabaseError) carries; its exact text is irrelevant to
the claims, a fixed representative is used. -/
def DB_ERROR_MSG : String := "数据库操作失败"

/-- Outcome of the login route: a bearer token or an HTTPException. -/
inductive LoginResult where
  | success (token : JwtToken)
  | failure (statusCode : Nat) (msg : String)
deriving DecidableEq, Repr

/-- user_routes.login_user together with auth.create_user_session.
Steps, each get_db_cursor call a separately committed transaction:
authenticate; reject suspended (403) and inactive (423); create the JWT;
INSERT the session row; UPDATE last_login; INSERT the audit row.
auditFault models a DatabaseError in the audit INSERT: create_user_session
does not catch it, login_user's except DatabaseError maps it to HTTP 500 —
the session row and last_login update from the earlier transactions remain
committed. -/
def login_user (key : String) (now : Int) (username password : String)
    (ip ua : Option String) (auditFault : Bool) (st : DBState) :
    LoginResult × DBState :=
  match authenticate_user st.users username password with
  | none => (.failure 401 "用户名或密码错误", st)
  | some u =>
    if u.status = .suspended then
      (.failure 403 "账户已被暂停，请联系管理员", st)
    else if u.status = .inactive then
      (.failure 423 "账户已被禁用，需要重新申请权限", st)
    else
      let token := createAccessToken key now u.id u.username u.role
      let th := hashToken (tokenString token)
      let expiresAt := now + ACCESS_TOKEN_EXPIRE_HOURS * 3600
      let st1 := { st with sessions := create_session u.id th expiresAt ip ua st.sessions }
      let st2 := { st1 with users := st1.users.map (fun v =>
                     if v.id = u.id then { v with lastLogin := some now } else v) }
      if auditFault then (.failure 500 DB_ERROR_MSG, st2)
      else
        let st3 := { st2 with audit := st2.audit ++
                      [{ userId := some u.id, action := "user_login",
                         entityType := none, entityId := none, ipAddress := ip }] }
        (.success token, st3)

/-! ### Review handler (user_routes.review_permission_request) -/

/-- Outcome of the review route. -/
inductive ReviewResult where
  | ok (msg : String)
  | err (statusCode : Nat) (msg : String)
deriving DecidableEq, Repr

/-- Python truthiness of the Optional[str] approved_duration. -/
def durTruthy : Option String → Bool
  | none => false
  | some s => s ≠ ""

/-- user_routes.review_permission_request, the admin gate already passed.
Steps: fetch the request (404 if absent); reject non-pending (400); run
review_request in its own transaction; if approved and approved_duration is
truthy, run grant_permission in a second, separate transaction.  grantFault
models a DatabaseError in that second transaction: it rolls back only the
grant, the already committed review stays, and the route's except
DatabaseError returns HTTP 500.  A ValueError from grant_permission is not
caught by the route and surfaces as a framework 500. -/
def review_permission_request (now : Int) (adminId : Nat) (requestId : Nat)
    (approved : Bool) (comments : Option String)
    (approvedDuration : Option String) (grantFault : Bool) (st : DBState) :
    ReviewResult × DBState :=
  match get_request_by_id st.requests requestId with
  | none => (.err 404 "权限申请不存在", st)
  | some pr =>
    if pr.status ≠ .pending then (.err 400 "该申请已被处理", st)
    else
      let (reqs1, success) :=
        review_request now requestId approved adminId comments approvedDuration
          st.requests
      let st1 := { st with requests := reqs1 }
      if ¬ success then (.err 500 "审批操作失败", st1)
      else if approved ∧ durTruthy approvedDuration then
        if grantFault then (.err 500 DB_ERROR_MSG, st1)
        else
          match grant_permission now pr.userId (approvedDuration.getD "")
              adminId st1.users with
          | .error _ => (.err 500 "Internal Server Error", st1)
          | .ok (users2, _) =>
            let st2 := { st1 with users := users2 }
            let st3 := { st2 with audit := st2.audit ++
                          [{ userId := some adminId,
                             action := "permission_request_review",
                             entityType := some "permission_request",
                             entityId := some requestId, ipAddress := none }] }
            (.ok (if approved then "权限申请已批准" else "权限申请已拒绝"), st3)
      else
        let st3 := { st1 with audit := st1.audit ++
                      [{ userId := some adminId,
                         action := "permission_request_review",
                         entityType := some "permission_request",
                         entityId := some requestId, ipAddress := none }] }
        (.ok (if approved then "权限申请已批准" else "权限申请已拒绝"), st3)

/-! ### Concrete fixtures used by counterexamples and witnesses -/

/-- An admin row. -/
def adminUser : UserRec :=
  { id := 1, username := "root", email := "root@x.com",
    passwordHash := hashPassword "s1" "adminpw", fullName := none,
    role := .admin, status := .active, permissionGrantedAt := none,
    permissionExpiresAt := none, grantedBy := none, lastLogin := none }

/-- An active non-admin row with a finite permission window. -/
def alice : UserRec :=
  { id := 2, username := "alice", email := "alice@x.com",
    passwordHash := hashPassword "s2" "pw123456", fullName := none,
    role := .user, status := .active, permissionGrantedAt := some 0,
    permissionExpiresAt := some 864000, grantedBy := some 1, lastLogin := none }

/-- A pending non-admin row. -/
def bob : UserRec :=
  { id := 3, username := "bob", email := "bob@x.com",
    passwordHash := hashPassword "s3" "bobpw", fullName := none,
    role := .user, status := .pending, permissionGrantedAt := none,
    permissionExpiresAt := none, grantedBy := none, lastLogin := none }

/-- A pending permission request filed by bob. -/
def req1 : ReqRec :=
  { id := 10, userId := 3, requestReason := "need access for study abroad",
    requestedDuration := "1month", additionalInfo := none, status := .pending,
    reviewedBy := none, reviewedAt := none, reviewerComments := none,
    approvedDuration := none }

/-- An already-approved permission request. -/
def req2 : ReqRec :=
  { req1 with
    id := 11, status := .approved, reviewedBy := some 1,
    reviewedAt := some 50, approvedDuration := some "1week" }

/-- Database state with an admin, a pending user, and bob's pending request. -/
def st0 : DBState :=
  { users := [adminUser, bob], requests := [req1, req2], sessions := [],
    audit := [] }

/-! ### Shared helper lemmas -/

/-- A map whose function fixes every element of the list is the identity. -/
theorem map_fix_of_forall {α : Type} (l : List α) (f : α → α)
    (h : ∀ a ∈ l, f a = a) : l.map f = l := by
  induction l with
  | nil => rfl
  | cons a t ih =>
    simp only [List.map_cons, h a (List.mem_cons_self a t),
      ih (fun x hx => h x (List.mem_cons_of_mem a hx))]

/-! ### Claim theorems -/

/-- Claim C1 counterexample: the duration-string grant used by review approval
(UserDatabase.grant_permission) has no role filter in its WHERE clause, so a
grant targeted at the admin user (id 1, role admin) affects one row — the
admin's status, permission_granted_at, permission_expires_at and granted_by
are all overwritten — refuting "every grant operation affects zero rows on an
admin target at the data layer". -/
theorem c1_grant_permission_mutates_admin :
    grant_permission 0 1 "30days" 2 [adminUser] =
      .ok ([{ adminUser with
              status := .active, permissionGrantedAt := some 0,
              permissionExpiresAt := some 2592000, grantedBy := some 2 }],
           true) ∧
    adminUser.permissionExpiresAt = none ∧ adminUser.grantedBy = none := by
  refine ⟨?_, rfl, rfl⟩
  rfl

/-- Claim C1 (amended): only the numeric-days grant
(UserDatabase.update_user_permission) enforces admin immunity at the data
layer: its WHERE clause requires role = 'user', so when every row with the
target id is an admin the update affects zero rows and the table is
unchanged.  The duration-string grant has no such data-layer guard. -/
theorem c1_numeric_grant_admin_noop (now days : Int) (userId grantedBy : Nat)
    (users : List UserRec)
    (h : ∀ u ∈ users, u.id = userId → u.role = Role.admin) :
    update_user_permission now userId days grantedBy users = (users, false) := by
  have key : ∀ u ∈ users, ¬ (u.id = userId ∧ u.role = Role.user) := by
    intro u hu hc
    have h3 := h u hu hc.1
    rw [h3] at hc
    exact absurd hc.2 (by simp)
  unfold update_user_permission
  refine Prod.ext ?_ ?_
  · exact map_fix_of_forall users _ (fun u hu => if_neg (key u hu))
  · simp only
    exact List.any_eq_false.mpr (fun u hu => by
      simpa using key u hu)

/-- Witness for the amended C1 theorem at a concrete admin-only target. -/
theorem c1_numeric_grant_admin_noop_witness :
    update_user_permission 100 1 30 2 [adminUser, bob] = ([adminUser, bob], false) :=
  c1_numeric_grant_admin_noop 100 30 1 2 [adminUser, bob] (by decide)

/-- Claim C4: for every non-admin row, the numeric-days grant
(UserDatabase.update_user_permission) yields, in the updated table:
days = -1 → expires_at null, granted_at = now, status active; days = 0 →
expires_at = now, status inactive; days > 0 → expires_at = now + days,
status active — in every case recording granted_by. -/
theorem c4_numeric_grant_semantics (now days : Int) (grantedBy : Nat)
    (u : UserRec) (users : List UserRec)
    (hrole : u.role = Role.user) (hu : u ∈ users) :
    (days = -1 →
      { u with
        permissionGrantedAt := some now, permissionExpiresAt := none,
        grantedBy := some grantedBy, status := .active } ∈
        (update_user_permission now u.id days grantedBy users).fst) ∧
    (days = 0 →
      { u with
        permissionGrantedAt := some now, permissionExpiresAt := some now,
        grantedBy := some grantedBy, status := .inactive } ∈
        (update_user_permission now u.id days grantedBy users).fst) ∧
    (0 < days →
      { u with
        permissionGrantedAt := some now,
        permissionExpiresAt := some (now + days * 86400),
        grantedBy := some grantedBy, status := .active } ∈
        (update_user_permission now u.id days grantedBy users).fst) := by
  have hmem :
      (if u.id = u.id ∧ u.role = Role.user then numericGrantRow now days grantedBy u
       else u) ∈ (update_user_permission now u.id days grantedBy users).fst :=
    List.mem_map_of_mem _ hu
  rw [if_pos ⟨rfl, hrole⟩] at hmem
  refine ⟨fun h1 => ?_, fun h0 => ?_, fun hp => ?_⟩
  · simpa [numericGrantRow, h1] using hmem
  · simpa [numericGrantRow, h0] using hmem
  · have hne1 : days ≠ -1 := by omega
    have hne0 : days ≠ 0 := by omega
    simpa [numericGrantRow, hne1, hne0] using hmem

/-- Witness for C4 at bob (role user) with a 30-day grant. -/
theorem c4_numeric_grant_semantics_witness :
    { bob with
      permissionGrantedAt := some 100,
      permissionExpiresAt := some (100 + 30 * 86400),
      grantedBy := some 1, status := .active } ∈
      (update_user_permission 100 bob.id 30 1 [adminUser, bob]).fst :=
  (c4_numeric_grant_semantics 100 30 1 bob [adminUser, bob] rfl
    (by decide)).2.2 (by decide)

/-- Claim C3 counterexample: the underlying data-layer update
(PermissionRequestDatabase.review_request) is keyed on id only, with no
status = 'pending' condition: applied to a request that is already approved
it reports rowcount > 0 and overwrites the row (status, reviewer, reviewed_at
and approved_duration all change), refuting "the underlying update from
pending to a terminal status is conditional on the current status being
pending". -/
theorem c3_review_update_unconditional :
    review_request 200 11 false 2 none none [req2] =
      ([{ req2 with
          status := .rejected, reviewedBy := some 2, reviewedAt := some 200,
          reviewerComments := none, approvedDuration := none }], true) ∧
    req2.status = .approved := by
  exact ⟨rfl, rfl⟩

/-- Claim C3 (amended): the conflict protection lives in the route layer:
review_permission_request fetches the request first and, when its status is
not pending, fails with HTTP 400 "该申请已被处理" leaving the whole database
state unchanged (the request keeps its status, reviewer and approved_duration
and no grant runs); the data-layer UPDATE itself is keyed on id only and is
not conditional on the current status. -/
theorem c3_route_rejects_nonpending (now : Int) (adminId requestId : Nat)
    (approved : Bool) (comments : Option String) (dur : Option String)
    (gf : Bool) (st : DBState) (pr : ReqRec)
    (hfind : get_request_by_id st.requests requestId = some pr)
    (hnp : pr.status ≠ .pending) :
    review_permission_request now adminId requestId approved comments dur gf st =
      (.err 400 "该申请已被处理", st) := by
  unfold review_permission_request
  rw [hfind]
  simp [hnp]

/-- Witness for the amended C3 theorem at the already-approved request. -/
theorem c3_route_rejects_nonpending_witness :
    review_permission_request 300 1 11 true none (some "1month") false st0 =
      (.err 400 "该申请已被处理", st0) :=
  c3_route_rejects_nonpending 300 1 11 true none (some "1month") false st0 req2
    (by decide) (by decide)

/-- Claim C2 counterexample: review and grant run in two separately committed
transactions (two independent get_db_cursor contexts).  When the grant
transaction fails (grantFault) after the review transaction has committed,
the route returns HTTP 500 and the reachable final state has bob's request
marked approved while bob's user row is untouched (status still pending, no
permission window written) — refuting "the combined state change happens in
one transaction, so no reachable state has a request approved without the
granted permission window having been written". -/
theorem c2_review_grant_not_atomic :
    (review_permission_request 100 1 10 true none (some "1month") true st0).fst =
      .err 500 DB_ERROR_MSG ∧
    (review_permission_request 100 1 10 true none (some "1month") true st0).snd.requests =
      [{ req1 with
         status := .approved, reviewedBy := some 1, reviewedAt := some 100,
         approvedDuration := some "1month" }, req2] ∧
    (review_permission_request 100 1 10 true none (some "1month") true st0).snd.users =
      [adminUser, bob] ∧
    bob.status = .pending ∧ bob.permissionExpiresAt = none := by
  exact ⟨rfl, rfl, rfl, rfl, rfl⟩

/-- Claim C2 (amended): review-then-grant is a sequence of two separate
transactions, not one atomic unit; only when both succeed does approving a
pending request with a valid truthy approved_duration both mark the request
approved and write the target user's permission window (status active,
granted_at = now, expires_at = now + duration, granted_by = reviewer).  If
the grant transaction fails after the review commits, the request is left
approved without the grant. -/
theorem c2_review_then_grant_success (now : Int) (adminId requestId : Nat)
    (comments : Option String) (dur : String) (secs : Int) (st : DBState)
    (pr : ReqRec) (u : UserRec)
    (hfind : get_request_by_id st.requests requestId = some pr)
    (hpend : pr.status = .pending)
    (hdur : dur ≠ "")
    (hsecs : durationSeconds dur = some secs)
    (hu : u ∈ st.users) (hid : u.id = pr.userId) :
    (review_permission_request now adminId requestId true comments (some dur)
        false st).fst = .ok "权限申请已批准" ∧
    (∀ r ∈ (review_permission_request now adminId requestId true comments
        (some dur) false st).snd.requests,
      r.id = requestId → r.status = .approved) ∧
    { u with
      status := .active, permissionGrantedAt := some now,
      permissionExpiresAt := some (now + secs), grantedBy := some adminId } ∈
      (review_permission_request now adminId requestId true comments (some dur)
        false st).snd.users := by
  have hsuccess : st.requests.any (fun r => r.id = requestId) = true :=
    List.any_eq_true.mpr ⟨pr, List.mem_of_find?_eq_some hfind,
      by simpa using List.find?_some hfind⟩
  have htruthy : durTruthy (some dur) = true := by
    simpa [durTruthy] using hdur
  unfold review_permission_request review_request grant_permission
  rw [hfind]
  simp only [hpend, hsuccess, htruthy, hsecs, Option.getD_some, ne_eq,
    not_true_eq_false, if_false, if_true, ite_true, ite_false, and_self,
    Bool.false_eq_true, not_false_eq_true]
  refine ⟨trivial, ?_, ?_⟩
  · intro r hr hrid
    rcases List.mem_map.mp hr with ⟨r0, hr0, hfr⟩
    by_cases hc : r0.id = requestId
    · rw [if_pos hc] at hfr
      rw [← hfr]
    · rw [if_neg hc] at hfr
      rw [← hfr] at hrid
      exact absurd hrid hc
  · have hm := List.mem_map_of_mem (fun v : UserRec =>
        if v.id = pr.userId then
          { v with
            status := UserStatus.active, permissionGrantedAt := some now,
            permissionExpiresAt := some (now + secs), grantedBy := some adminId }
        else v) hu
    simpa [hid] using hm

/-- Witness for the amended C2 theorem: approving bob's pending request with
duration "1month" (no fault) marks it approved and grants bob the window. -/
theorem c2_review_then_grant_success_witness :
    (review_permission_request 100 1 10 true none (some "1month")
        false st0).fst = .ok "权限申请已批准" ∧
    (∀ r ∈ (review_permission_request 100 1 10 true none (some "1month")
        false st0).snd.requests,
      r.id = 10 → r.status = .approved) ∧
    { bob with
      status := .active, permissionGrantedAt := some 100,
      permissionExpiresAt := some (100 + 2592000), grantedBy := some 1 } ∈
      (review_permission_request 100 1 10 true none (some "1month")
        false st0).snd.users :=
  c2_review_then_grant_success 100 1 10 none "1month" 2592000 st0 req1 bob
    (by decide) rfl (by decide) rfl (by decide) rfl

/-- Database state holding only alice, used by the login claims. -/
def stLogin : DBState :=
  { users := [alice], requests := [], sessions := [], audit := [] }

/-- Claim C5 counterexample: the audit INSERT in create_user_session is not
wrapped in any try/except; a DatabaseError there (auditFault) propagates to
login_user, which maps it to HTTP 500 — login does not return a token even
though only the audit insert failed (the session row from the earlier,
separately committed transaction is nevertheless present), refuting "the
triggering operation still completes successfully". -/
theorem c5_audit_failure_aborts_login :
    (login_user "k" 100 "alice" "pw123456" none none true stLogin).fst =
      .failure 500 DB_ERROR_MSG ∧
    { userId := 2,
      tokenHash := hashToken (tokenString (createAccessToken "k" 100 2 "alice"
        Role.user)),
      expiresAt := 100 + 24 * 3600, ipAddress := none,
      userAgent := none } ∈
      (login_user "k" 100 "alice" "pw123456" none none true stLogin).snd.sessions := by
  exact ⟨rfl, by decide⟩

/-- Claim C5 (amended): an audit-log failure is propagated, not swallowed:
for any successful authentication whose status passes the login checks, if
the audit insert fails the login returns the 500 persistence error and no
token, while the session row written by the earlier separately committed
transaction remains in the store. -/
theorem c5_audit_failure_propagates (key : String) (now : Int)
    (username password : String) (ip ua : Option String) (st : DBState)
    (u : UserRec)
    (hauth : authenticate_user st.users username password = some u)
    (hs : u.status ≠ .suspended) (hi : u.status ≠ .inactive) :
    (login_user key now username password ip ua true st).fst =
      .failure 500 DB_ERROR_MSG ∧
    { userId := u.id,
      tokenHash := hashToken (tokenString (createAccessToken key now u.id
        u.username u.role)),
      expiresAt := now + ACCESS_TOKEN_EXPIRE_HOURS * 3600, ipAddress := ip,
      userAgent := ua } ∈
      (login_user key now username password ip ua true st).snd.sessions := by
  unfold login_user
  rw [hauth]
  simp [hs, hi, create_session]

/-- Witness for the amended C5 theorem at alice's login. -/
theorem c5_audit_failure_propagates_witness :
    (login_user "k" 200 "alice" "pw123456" none none true stLogin).fst =
      .failure 500 DB_ERROR_MSG ∧
    { userId := alice.id,
      tokenHash := hashToken (tokenString (createAccessToken "k" 200 alice.id
        alice.username alice.role)),
      expiresAt := 200 + ACCESS_TOKEN_EXPIRE_HOURS * 3600, ipAddress := none,
      userAgent := none } ∈
      (login_user "k" 200 "alice" "pw123456" none none true stLogin).snd.sessions :=
  c5_audit_failure_propagates "k" 200 "alice" "pw123456" none none stLogin
    alice (by decide) (by decide) (by decide)

/-- Claim C8: login with a username that has no user row and login with an
existing username but failing password verification take the same rejection
path: both runs return the identical generic 401 error ("用户名或密码错误")
with the identical unchanged state, so the two runs are indistinguishable to
the caller. -/
theorem c8_login_indistinguishable (key : String) (now : Int)
    (ip ua : Option String) (st : DBState) (name1 pw1 name2 pw2 : String)
    (u : UserRec)
    (h1 : get_user_by_username st.users name1 = none)
    (h2 : get_user_by_username st.users name2 = some u)
    (h3 : verifyPassword pw2 u.passwordHash = false) :
    login_user key now name1 pw1 ip ua false st =
      (.failure 401 "用户名或密码错误", st) ∧
    login_user key now name2 pw2 ip ua false st =
      (.failure 401 "用户名或密码错误", st) ∧
    login_user key now name1 pw1 ip ua false st =
      login_user key now name2 pw2 ip ua false st := by
  have e1 : login_user key now name1 pw1 ip ua false st =
      (.failure 401 "用户名或密码错误", st) := by
    unfold login_user authenticate_user
    rw [h1]
  have e2 : login_user key now name2 pw2 ip ua false st =
      (.failure 401 "用户名或密码错误", st) := by
    unfold login_user authenticate_user
    rw [h2]
    simp [h3]
  exact ⟨e1, e2, e1.trans e2.symm⟩

/-- Witness for C8: an unknown username and alice with a wrong password. -/
theorem c8_login_indistinguishable_witness :
    login_user "k" 100 "charlie" "whatever" none none false stLogin =
      (.failure 401 "用户名或密码错误", stLogin) ∧
    login_user "k" 100 "alice" "wrongpw" none none false stLogin =
      (.failure 401 "用户名或密码错误", stLogin) ∧
    login_user "k" 100 "charlie" "whatever" none none false stLogin =
      login_user "k" 100 "alice" "wrongpw" none none false stLogin :=
  c8_login_indistinguishable "k" 100 none none stLogin "charlie" "whatever"
    "alice" "wrongpw" alice (by decide) (by decide) (by decide)

/-- An inactive non-admin row with correct credentials available. -/
def dana : UserRec :=
  { alice with
    id := 4, username := "dana", email := "dana@x.com",
    status := .inactive }

/-- Claim C9 counterexample: a user whose status is inactive presenting
correct credentials does not log in successfully — login_user raises HTTP
423 ("账户已被禁用，需要重新申请权限") and issues no token, refuting "login
succeeds but the account is flagged distinctly". -/
theorem c9_inactive_login_rejected :
    (login_user "k" 100 "dana" "pw123456" none none false
        { users := [dana], requests := [], sessions := [], audit := [] }).fst =
      .failure 423 "账户已被禁用，需要重新申请权限" := by
  rfl

/-- Claim C9 (amended): with correct credentials, a suspended user's login is
rejected outright with a forbidden (403) outcome and an inactive user's login
is also rejected, with a 423 (locked) outcome and a different message; the
two rejection outcomes are distinguishable from each other. -/
theorem c9_inactive_vs_suspended (key : String) (now : Int)
    (ip ua : Option String) (st : DBState) (name pw : String) (u : UserRec)
    (af : Bool)
    (hauth : authenticate_user st.users name pw = some u) :
    (u.status = .suspended →
      login_user key now name pw ip ua af st =
        (.failure 403 "账户已被暂停，请联系管理员", st)) ∧
    (u.status = .inactive →
      login_user key now name pw ip ua af st =
        (.failure 423 "账户已被禁用，需要重新申请权限", st)) ∧
    (LoginResult.failure 403 "账户已被暂停，请联系管理员" ≠
      LoginResult.failure 423 "账户已被禁用，需要重新申请权限") := by
  refine ⟨fun hs => ?_, fun hi => ?_, by decide⟩
  · unfold login_user
    rw [hauth]
    simp [hs]
  · unfold login_user
    rw [hauth]
    simp [hi]

/-- Witness for the amended C9 theorem at dana (inactive, correct password). -/
theorem c9_inactive_vs_suspended_witness :
    login_user "k" 100 "dana" "pw123456" none none false
        { users := [dana], requests := [], sessions := [], audit := [] } =
      (.failure 423 "账户已被禁用，需要重新申请权限",
       { users := [dana], requests := [], sessions := [], audit := [] }) :=
  (c9_inactive_vs_suspended "k" 100 none none
    { users := [dana], requests := [], sessions := [], audit := [] }
    "dana" "pw123456" dana false (by decide)).2.1 rfl

/-- Claim C6: after logout(token), the session-store lookup by the token's
fingerprint fails and the Access Control Gate rejects a request bearing that
token with 401, even when the token's signature and expiry still verify; and
(given the schema's foreign key from sessions to users) a session lookup
succeeds iff its hash exists in the store and its expires_at is strictly in
the future. -/
theorem c6_logout_revokes_session (key : String) (now : Int) (t : JwtToken)
    (sessions : List SessionRec) (users : List UserRec)
    (hfk : ∀ s ∈ sessions, ∃ u ∈ users, u.id = s.userId)
    (hver : verifyToken key now t = .ok t.claims) :
    validate_session now (hashToken (tokenString t)) (logout_user t sessions)
      users = none ∧
    get_current_user key now t (logout_user t sessions) users false false =
      .error (401, "认证失败") ∧
    (∀ h : String, (validate_session now h sessions users).isSome ↔
      ∃ s ∈ sessions, s.tokenHash = h ∧ now < s.expiresAt) := by
  have hnone : validate_session now (hashToken (tokenString t))
      (logout_user t sessions) users = none := by
    unfold validate_session logout_user delete_session
    have hempty : ((sessions.filter
        (fun s => s.tokenHash ≠ hashToken (tokenString t))).filter
        (fun s => decide (s.tokenHash = hashToken (tokenString t) ∧
          now < s.expiresAt))) = [] := by
      rw [List.filter_eq_nil_iff]
      intro s hs
      have h2 := (List.mem_filter.mp hs).2
      simp only [ne_eq, decide_not, Bool.not_eq_true', decide_eq_false_iff_not] at h2
      simp only [decide_eq_true_eq, not_and]
      intro h3
      exact absurd h3 h2
    rw [hempty]
    rfl
  have hgate : get_current_user key now t (logout_user t sessions) users
      false false = .error (401, "认证失败") := by
    unfold get_current_user
    rw [hver]
    dsimp only
    by_cases h0 : t.claims.userId = 0
    · rw [if_pos h0]
    · rw [if_neg h0]
      simp only [Bool.false_eq_true, if_false, ite_false]
      rw [hnone]
  refine ⟨hnone, hgate, fun h => ?_⟩
  unfold validate_session
  constructor
  · intro hs
    rw [Option.isSome_iff_ne_none] at hs
    have hne : ¬ ∀ x ∈ (sessions.filter
        (fun s => decide (s.tokenHash = h ∧ now < s.expiresAt))),
        ((users.find? fun u => u.id = x.userId).map fun u => (x, u)) = none :=
      fun hall => hs (List.findSome?_eq_none_iff.mpr hall)
    push_neg at hne
    rcases hne with ⟨x, hx, hfx⟩
    have hx2 := List.mem_filter.mp hx
    exact ⟨x, hx2.1, by simpa using hx2.2⟩
  · rintro ⟨s, hs, hhash, hexp⟩
    rw [Option.isSome_iff_ne_none]
    intro hn
    have hall := List.findSome?_eq_none_iff.mp hn
    have hsf : s ∈ sessions.filter
        (fun s => decide (s.tokenHash = h ∧ now < s.expiresAt)) :=
      List.mem_filter.mpr ⟨hs, by simp [hhash, hexp]⟩
    have hmap := hall s hsf
    rcases hfk s hs with ⟨u, hu, huid⟩
    have hfind : (users.find? fun v => v.id = s.userId).isSome :=
      List.find?_isSome.mpr ⟨u, hu, by simp [huid]⟩
    rcases Option.isSome_iff_exists.mp hfind with ⟨v, hv⟩
    rw [hv] at hmap
    simp at hmap

/-- A token issued to alice at time 0 with the default 24-hour ttl. -/
def tokA : JwtToken := createAccessToken "k" 0 2 "alice" Role.user

/-- The session row created for tokA. -/
def sessA : SessionRec :=
  { userId := 2, tokenHash := hashToken (tokenString tokA),
    expiresAt := 86400, ipAddress := none, userAgent := none }

/-- Witness for C6 at alice's live session, before the token's expiry. -/
theorem c6_logout_revokes_session_witness :
    validate_session 100 (hashToken (tokenString tokA))
      (logout_user tokA [sessA]) [alice] = none ∧
    get_current_user "k" 100 tokA (logout_user tokA [sessA]) [alice]
      false false = .error (401, "认证失败") ∧
    (∀ h : String, (validate_session 100 h [sessA] [alice]).isSome ↔
      ∃ s ∈ [sessA], s.tokenHash = h ∧ 100 < s.expiresAt) :=
  c6_logout_revokes_session "k" 100 tokA [sessA] [alice] (by decide) rfl

/-- Claim C7: the active-access gate admits admins unconditionally; a
non-admin with status active whose permission_expires_at is non-null and in
the past is rejected 403 with the expired-permission reason, while the same
user with expiry still in the future is admitted; a non-admin whose status is
not active is rejected 403 with the pending-approval reason. -/
theorem c7_active_gate_semantics (now e : Int) (u : UserRec) :
    (u.role = .admin → get_current_active_user now u = .ok u) ∧
    (u.role = .user → u.status ≠ .active →
      get_current_active_user now u =
        .forbidden "您的账户权限申请还未被批准，请耐心等待") ∧
    (u.role = .user → u.status = .active → u.permissionExpiresAt = some e →
      e < now →
      get_current_active_user now u =
        .forbidden "您的访问权限已过期，请重新申请") ∧
    (u.role = .user → u.status = .active → u.permissionExpiresAt = some e →
      now < e → get_current_active_user now u = .ok u) := by
  refine ⟨fun ha => ?_, fun hr hs => ?_, fun hr hs he hlt => ?_,
    fun hr hs he hlt => ?_⟩
  · simp [get_current_active_user, ha]
  · simp [get_current_active_user, hr, hs]
  · have hle : e ≤ now := le_of_lt hlt
    simp [get_current_active_user, hr, hs, he, hle]
  · have hnle : ¬ e ≤ now := not_le.mpr hlt
    simp [get_current_active_user, hr, hs, he, hnle]

/-- Witness for C7: the admin passes; pending bob is rejected with the
pending reason; alice (expiry 864000) is rejected with the expired reason
one tick past expiry and admitted before it. -/
theorem c7_active_gate_semantics_witness :
    get_current_active_user 100 adminUser = .ok adminUser ∧
    get_current_active_user 100 bob =
      .forbidden "您的账户权限申请还未被批准，请耐心等待" ∧
    get_current_active_user 864001 alice =
      .forbidden "您的访问权限已过期，请重新申请" ∧
    get_current_active_user 100 alice = .ok alice :=
  ⟨(c7_active_gate_semantics 100 0 adminUser).1 rfl,
   (c7_active_gate_semantics 100 0 bob).2.1 rfl (by decide),
   (c7_active_gate_semantics 864001 864000 alice).2.2.1 rfl rfl rfl
     (by decide),
   (c7_active_gate_semantics 100 864000 alice).2.2.2 rfl rfl rfl (by decide)⟩

/-- Claim C10: the base principal resolver is total over failures: for every
input, including injected persistence-layer DatabaseError faults in the
session lookup or the user lookup, get_current_user either returns a
principal or a 401 rejection carrying one of the two fixed generic messages;
no other error class ever escapes. -/
theorem c10_resolver_total_401 (key : String) (now : Int) (t : JwtToken)
    (sessions : List SessionRec) (users : List UserRec) (sf uf : Bool) :
    (∃ u, get_current_user key now t sessions users sf uf = .ok u) ∨
    (∃ m, get_current_user key now t sessions users sf uf = .error (401, m) ∧
      (m = "认证失败" ∨ m = "认证错误")) := by
  unfold get_current_user
  repeat' first
    | exact .inl ⟨_, rfl⟩
    | exact .inr ⟨_, rfl, .inl rfl⟩
    | exact .inr ⟨_, rfl, .inr rfl⟩
    | split

end AIex
